import Mathlib

/-!
Verification development for `src/format.js` of the react-intl repository:
the formatting utility layer (formatDate, formatTime, formatRelative,
formatNumber, formatPlural, formatMessage, formatHTMLMessage).

The JavaScript module is shallowly embedded: JS objects are association
lists from string keys to a small value type, formatter objects obtained
from the externally supplied cache/state are records of functions, and
code that may throw is modelled with `Except`.  `console.error` output of
`formatMessage` is modelled as a returned list of log lines; the value
returned to the caller is the first component of the pair.
-/

namespace ReactIntl

/-- A JavaScript runtime value, as far as `format.js` inspects values.
`num` models integer-valued numbers (the module performs no arithmetic);
`obj` is an opaque reference to any other object.  `null` and `NaN` are
not modelled: no claim depends on them, and the module's behaviour on
them is either identical to `undef` or a platform `TypeError` outside the
scope of the spec. -/
inductive JSVal where
  | str : String → JSVal
  | num : Int → JSVal
  | bool : Bool → JSVal
  | undef : JSVal
  | obj : Nat → JSVal
deriving DecidableEq, Repr

/-- A JavaScript object as `format.js` uses one: an association list of
own enumerable string-keyed properties.  JS objects have no duplicate
keys; association lists with duplicate keys read through `lookupProp`
behave like the object that only has the first binding of each key. -/
abbrev Obj := List (String × JSVal)

/-- JS property read `o[k]` restricted to own properties, as `Option`. -/
def lookupProp : Obj → String → Option JSVal
  | [], _ => none
  | (k', v) :: rest, k => if k' = k then some v else lookupProp rest k

/-- `o.hasOwnProperty(k)` (format.js lines 25 and 27). -/
def hasOwn (o : Obj) (k : String) : Bool :=
  (lookupProp o k).isSome

/-- JS property read `o[k]`, yielding `undefined` when the key is absent. -/
def getProp (o : Obj) (k : String) : JSVal :=
  (lookupProp o k).getD JSVal.undef

/-- JS property assignment `o[k] = v`: replaces the binding of an existing
key in place, otherwise appends a new own property. -/
def setKey : Obj → String → JSVal → Obj
  | [], k, v => [(k, v)]
  | (k', v') :: rest, k, v =>
      if k' = k then (k, v) :: rest else (k', v') :: setKey rest k v

/-- JS truthiness of a value (`if (x)`, `x && y`). -/
def jsvalTruthy : JSVal → Bool
  | JSVal.str s => !(s == "")
  | JSVal.num n => !(n == 0)
  | JSVal.bool b => b
  | JSVal.undef => false
  | JSVal.obj _ => true

/-- JS coercion of a value to a property key (string). -/
def jsvalToKey : JSVal → String
  | JSVal.str s => s
  | JSVal.num n => toString n
  | JSVal.bool b => if b then "true" else "false"
  | JSVal.undef => "undefined"
  | JSVal.obj _ => "[object Object]"

/-- JS truthiness of a possibly-undefined string (message sources, ids):
`undefined` and the empty string are falsy. -/
def strTruthy : Option String → Bool
  | none => false
  | some s => !(s == "")

/-- The JS string fallback chain `a || b`, used where the overall result is
known to be a string: yields `a`'s string when `a` is truthy and `b`
otherwise (format.js lines 141 and 204). -/
def jsOr (a : Option String) (b : String) : String :=
  if strTruthy a then a.getD "" else b

/-- A JS `Date` reduced to what the module observes: a valid millisecond
timestamp, or `none` for an Invalid Date (timestamp `NaN`, so that
`isFinite(date)` is exactly `isSome`). -/
abbrev JSDate := Option Int

/-- Model of the platform conversion `new Date(value)` (format.js lines 52,
67, 82, 83): numbers are taken as timestamps, booleans coerce to 0/1, and
`undefined`, strings and other objects are conservatively modelled as
producing an Invalid Date.  No theorem below depends on which values
convert to a valid date, only on the valid/invalid distinction. -/
def newDate : JSVal → JSDate
  | JSVal.num n => some n
  | JSVal.bool b => some (if b then 1 else 0)
  | JSVal.str _ => none
  | JSVal.undef => none
  | JSVal.obj _ => none

/-- Generic association-list lookup (used for format tables and message
catalogs). -/
def lookupAssoc {α : Type} : List (String × α) → String → Option α
  | [], _ => none
  | (k', v) :: rest, k => if k' = k then some v else lookupAssoc rest k

/-- The user-supplied `formats` / `defaultFormats` configuration value: a
table from format type (`"date"`, `"time"`, `"relative"`, `"number"`) to a
table from format name to an options object. -/
abbrev Formats := List (String × List (String × Obj))

/-- `getNamedFormat` (format.js lines 35-46): `formats && formats[type] &&
formats[type][name]`, returning the named format object when every link of
the chain is present.  The accompanying dev-only `console.error` has no
effect on the returned value and is not modelled. -/
def getNamedFormat (formats : Option Formats) (type : String) (name : String) :
    Option Obj :=
  match formats with
  | none => none
  | some fs => (lookupAssoc fs type).bind fun table => lookupAssoc table name

/-- Modelled from the spec: `DATE_TIME_FORMAT_OPTIONS =
Object.keys(dateTimeFormatPropTypes)` (format.js line 18), where
`dateTimeFormatPropTypes` lives in `./types`, a module of this repository
absent from src/.  The spec describes these constants only as whitelists
of formatter options; the concrete keys below are the ECMA-402
`Intl.DateTimeFormat` option names those prop types mirror.  No theorem
depends on the exact membership of any whitelist. -/
def DATE_TIME_FORMAT_OPTIONS : List String :=
  ["localeMatcher", "formatMatcher", "timeZone", "hour12", "weekday", "era",
   "year", "month", "day", "hour", "minute", "second", "timeZoneName"]

/-- Modelled from the spec: `NUMBER_FORMAT_OPTIONS =
Object.keys(numberFormatPropTypes)` (format.js line 19); see
`DATE_TIME_FORMAT_OPTIONS`. -/
def NUMBER_FORMAT_OPTIONS : List String :=
  ["localeMatcher", "style", "currency", "currencyDisplay", "useGrouping",
   "minimumIntegerDigits", "minimumFractionDigits", "maximumFractionDigits",
   "minimumSignificantDigits", "maximumSignificantDigits"]

/-- Modelled from the spec: `RELATIVE_FORMAT_OPTIONS =
Object.keys(relativeFormatPropTypes)` (format.js line 20); see
`DATE_TIME_FORMAT_OPTIONS`. -/
def RELATIVE_FORMAT_OPTIONS : List String := ["style", "units"]

/-- Modelled from the spec: `PLURAL_FORMAT_OPTIONS =
Object.keys(pluralFormatPropTypes)` (format.js line 21); see
`DATE_TIME_FORMAT_OPTIONS`. -/
def PLURAL_FORMAT_OPTIONS : List String := ["style"]

/-- One step of the `whitelist.reduce` body of `filterFormatOptions`
(format.js lines 24-32): copy the whitelisted property from `obj` when it
is an own property there, else from `defaults`, else leave the accumulator
unchanged. -/
def filterStep (obj defaults : Obj) (opts : Obj) (name : String) : Obj :=
  if hasOwn obj name then setKey opts name (getProp obj name)
  else if hasOwn defaults name then setKey opts name (getProp defaults name)
  else opts

/-- `filterFormatOptions(whitelist, obj, defaults = {})` (format.js lines
23-33).  The callers pass `format && getNamedFormat(...)` as `defaults`;
every falsy value of that expression (absent `format`, or a missing named
format, where the JS default parameter `{}` kicks in or the falsy
primitive has no whitelisted own property) is modelled by the empty
object `[]`. -/
def filterFormatOptions (whitelist : List String) (obj : Obj)
    (defaults : Obj := []) : Obj :=
  whitelist.foldl (filterStep obj defaults) []

/-- A memoized `Intl.DateTimeFormat` instance as obtained from the state
cache: only its `format` method is used. -/
structure DateTimeFormat where
  format : JSDate → String

/-- A memoized `Intl.NumberFormat` instance: only `format` is used. -/
structure NumberFormat where
  format : JSVal → String

/-- A memoized `IntlRelativeFormat` instance: `format(date, {now})`. -/
structure RelativeFormat where
  format : JSDate → Int → String

/-- A memoized `IntlPluralFormat` instance: only `format` is used. -/
structure PluralFormat where
  format : JSVal → String

/-- A memoized `IntlMessageFormat` instance: `format(values)` may throw
(modelled with `Except`), matching the try/catch in `formatMessage`. -/
structure MsgFormatter where
  format : Obj → Except String String

/-- The externally supplied cache/state object: memoized formatter
constructors plus `now()` (modelled as the timestamp it returns).
Constructing a message formatter may throw, hence `Except`; the other
constructors are used unguarded by the module and are modelled total. -/
structure State where
  getDateTimeFormat : String → Obj → DateTimeFormat
  getNumberFormat : String → Obj → NumberFormat
  getRelativeFormat : String → Obj → RelativeFormat
  getPluralFormat : String → Obj → PluralFormat
  getMessageFormat : String → String → Option Formats → Except String MsgFormatter
  now : Int

/-- The configuration record destructured by every formatting function:
locale, format tables, message catalog, and the default locale/formats
used when falling back to the default message. -/
structure Config where
  locale : String
  formats : Option Formats
  messages : Option (List (String × String))
  defaultLocale : String
  defaultFormats : Option Formats

/-- The `defaults` argument the date/time/relative/number formatters pass
to `filterFormatOptions`: `format && getNamedFormat(formats, type, format)`
(format.js lines 53, 68, 84, 100), with every falsy outcome collapsed to
the empty object (see `filterFormatOptions`). -/
def namedDefaults (config : Config) (type : String) (options : Obj) : Obj :=
  let format := getProp options "format"
  if jsvalTruthy format then
    (getNamedFormat config.formats type (jsvalToKey format)).getD []
  else []

/-- `formatDate` (format.js lines 48-61). -/
def formatDate (config : Config) (state : State) (value : JSVal)
    (options : Obj := []) : String :=
  (state.getDateTimeFormat config.locale
      (filterFormatOptions DATE_TIME_FORMAT_OPTIONS options
        (namedDefaults config "date" options))).format
    (newDate value)

/-- `formatTime` (format.js lines 63-76). -/
def formatTime (config : Config) (state : State) (value : JSVal)
    (options : Obj := []) : String :=
  (state.getDateTimeFormat config.locale
      (filterFormatOptions DATE_TIME_FORMAT_OPTIONS options
        (namedDefaults config "time" options))).format
    (newDate value)

/-- `formatRelative` (format.js lines 78-94): the `now` reference passed to
the formatter is `new Date(options.now)` when that is a finite date and
`state.now()` otherwise. -/
def formatRelative (config : Config) (state : State) (value : JSVal)
    (options : Obj := []) : String :=
  let now := newDate (getProp options "now")
  (state.getRelativeFormat config.locale
      (filterFormatOptions RELATIVE_FORMAT_OPTIONS options
        (namedDefaults config "relative" options))).format
    (newDate value)
    (match now with
     | some t => t
     | none => state.now)

/-- `formatNumber` (format.js lines 96-108). -/
def formatNumber (config : Config) (state : State) (value : JSVal)
    (options : Obj := []) : String :=
  (state.getNumberFormat config.locale
      (filterFormatOptions NUMBER_FORMAT_OPTIONS options
        (namedDefaults config "number" options))).format value

/-- `formatPlural` (format.js lines 110-116): no named-format defaults. -/
def formatPlural (config : Config) (state : State) (value : JSVal)
    (options : Obj := []) : String :=
  (state.getPluralFormat config.locale
      (filterFormatOptions PLURAL_FORMAT_OPTIONS options [])).format value

/-- The message descriptor destructured by `formatMessage` (format.js lines
127-130): an `id` and an optional default message.  Absent fields are
`none`; a present-but-empty string is a distinct falsy value. -/
structure MessageDescriptor where
  id : Option String := none
  defaultMessage : Option String := none

/-- The message thrown by `invariant` when the descriptor has no truthy
`id` (format.js line 133). -/
def invariantMessage : String :=
  "[React Intl] An `id` must be provided to format a message."

/-- `messages && messages[id]` (format.js line 135). -/
def catalogMessage (config : Config) (id : String) : Option String :=
  config.messages.bind fun msgs => lookupAssoc msgs id

/-- The `console.error` text for a formatting error of the catalog message
(format.js lines 155-159). -/
def formatErrorLog (id locale : String) (defaultMessage : Option String)
    (e : String) : String :=
  "[React Intl] Error formatting message: \"" ++ id ++ "\" for locale: \""
    ++ locale ++ "\""
    ++ (if strTruthy defaultMessage then ", using default message as fallback."
        else "")
    ++ "\n" ++ e

/-- The `console.error` text for a missing catalog message (format.js
lines 170-173). -/
def missingMessageLog (id locale : String) (defaultMessage : Option String) :
    String :=
  "[React Intl] Missing message: \"" ++ id ++ "\" for locale: \"" ++ locale
    ++ "\""
    ++ (if strTruthy defaultMessage then ", using default message as fallback."
        else "")

/-- The `console.error` text for a formatting error of the default message
(format.js lines 187-189). -/
def defaultErrorLog (id e : String) : String :=
  "[React Intl] Error formatting the default message for: \"" ++ id ++ "\""
    ++ "\n" ++ e

/-- The final `console.error` text when no formatted message was produced
(format.js lines 197-200). -/
def cannotFormatLog (id : String) (message defaultMessage : Option String) :
    String :=
  "[React Intl] Cannot format message: \"" ++ id ++ "\", using message "
    ++ (if strTruthy message || strTruthy defaultMessage then "source" else "id")
    ++ " as fallback."

/-- The try/catch around obtaining a message formatter from the state and
formatting with it (format.js lines 147-161 and 179-192): on success the
formatted string, on a throw from either step `none` plus the dev-only log
line built from the thrown value. -/
def tryFormatLogged (state : State) (source locale : String)
    (formats : Option Formats) (values : Obj) (errLog : String → String)
    (prod : Bool) : Option String × List String :=
  match state.getMessageFormat source locale formats with
  | Except.error e => (none, if prod then [] else [errLog e])
  | Except.ok formatter =>
    match formatter.format values with
    | Except.error e => (none, if prod then [] else [errLog e])
    | Except.ok s => (some s, [])

/-- The dev-only missing-message warning block (format.js lines 163-175):
logged unless a default message exists and the locale case-insensitively
equals the default locale (a falsy `locale` string also suppresses the
locale comparison). -/
def missingLogs (prod : Bool) (config : Config) (defaultMessage : Option String)
    (id : String) : List String :=
  if prod then []
  else if !strTruthy defaultMessage
      || (!(config.locale == "")
          && !(config.locale.toLower == config.defaultLocale.toLower)) then
    [missingMessageLog id config.locale defaultMessage]
  else []

/-- `formatMessage` (format.js lines 118-205).  The returned pair is the
value handed to the caller (`Except.error` models the `invariant` throw)
together with the `console.error` lines emitted during the call, in order.
`prod` is `process.env.NODE_ENV === 'production'`. -/
def formatMessage (config : Config) (state : State)
    (messageDescriptor : MessageDescriptor := {}) (values : Obj := [])
    (prod : Bool := false) : Except String String × List String :=
  if !strTruthy messageDescriptor.id then
    (Except.error invariantMessage, [])
  else
    let id := messageDescriptor.id.getD ""
    let defaultMessage := messageDescriptor.defaultMessage
    let message := catalogMessage config id
    if values.isEmpty && prod then
      (Except.ok (jsOr message (jsOr defaultMessage id)), [])
    else
      let r1 : Option String × List String :=
        if strTruthy message then
          tryFormatLogged state (message.getD "") config.locale config.formats
            values (formatErrorLog id config.locale defaultMessage) prod
        else (none, missingLogs prod config defaultMessage id)
      let r2 : Option String × List String :=
        if !strTruthy r1.1 && strTruthy defaultMessage then
          let r := tryFormatLogged state (defaultMessage.getD "")
            config.defaultLocale config.defaultFormats values
            (defaultErrorLog id) prod
          (r.1 <|> r1.1, r.2)
        else (r1.1, [])
      let logs3 :=
        if !strTruthy r2.1 && !prod then [cannotFormatLog id message defaultMessage]
        else []
      (Except.ok (jsOr r2.1 (jsOr message (jsOr defaultMessage id))),
        r1.2 ++ r2.2 ++ logs3)

/-- Modelled from the spec: the HTML `escape` helper imported by format.js
from `./utils`, a module of this repository absent from src/.  The spec
calls `formatHTMLMessage` "an HTML-escaping variant", so each character
unsafe in HTML is replaced by its entity; no theorem depends on the exact
replacement table. -/
def escapeChar (c : Char) : String :=
  if c = '&' then "&amp;"
  else if c = '>' then "&gt;"
  else if c = '<' then "&lt;"
  else if c = Char.ofNat 34 then "&quot;"
  else if c = Char.ofNat 39 then "&#x27;"
  else String.singleton c

/-- Modelled from the spec: HTML-escaping of a whole string, see
`escapeChar`. -/
def escape (s : String) : String :=
  String.join (s.toList.map escapeChar)

/-- The per-value escaping step of `formatHTMLMessage` (format.js line
213): string values are HTML-escaped, every other value passes through. -/
def escapeValue : JSVal → JSVal
  | JSVal.str s => JSVal.str (escape s)
  | v => v

/-- The `Object.keys(rawValues).reduce` of `formatHTMLMessage` (format.js
lines 211-215), building a fresh object of escaped values. -/
def escapeValues (rawValues : Obj) : Obj :=
  rawValues.foldl (fun escaped nv => setKey escaped nv.1 (escapeValue nv.2)) []

/-- `formatHTMLMessage` (format.js lines 207-218). -/
def formatHTMLMessage (config : Config) (state : State)
    (messageDescriptor : MessageDescriptor) (rawValues : Obj := [])
    (prod : Bool := false) : Except String String × List String :=
  formatMessage config state messageDescriptor (escapeValues rawValues) prod

/-- The value produced by one guarded formatter invocation, without the
logging: `some` formatted string on success, `none` when obtaining the
formatter or formatting threw. -/
def tryFormat (state : State) (source locale : String)
    (formats : Option Formats) (values : Obj) : Option String :=
  match state.getMessageFormat source locale formats with
  | Except.error _ => none
  | Except.ok formatter =>
    match formatter.format values with
    | Except.error _ => none
    | Except.ok s => some s

/-- The formatted-message component of `formatMessage`'s result: `none` on
the production fast path, otherwise the guarded formatting of the catalog
message followed, when that yielded nothing truthy, by the guarded
formatting of the default message (which on a throw leaves the earlier
value in place). -/
def attemptedMessage (config : Config) (state : State)
    (d : MessageDescriptor) (values : Obj) (prod : Bool) : Option String :=
  if values.isEmpty && prod then none
  else
    let message := catalogMessage config (d.id.getD "")
    let first :=
      if strTruthy message then
        tryFormat state (message.getD "") config.locale config.formats values
      else none
    if !strTruthy first && strTruthy d.defaultMessage then
      (tryFormat state (d.defaultMessage.getD "") config.defaultLocale
        config.defaultFormats values) <|> first
    else first

/-- Stated from the claim's words: the first defined (non-`undefined`)
element of a fallback chain, regardless of truthiness. -/
def firstDefined (l : List (Option String)) : Option String :=
  (l.find? Option.isSome).bind id

/-- The per-entry escaping map stated from the claim's words: every
string-valued entry goes through `escape`, every other entry is
unchanged. -/
def escapeEntry (nv : String × JSVal) : String × JSVal :=
  (nv.1, escapeValue nv.2)

/-! ### Heap model for the frame claim

The module writes to JavaScript objects in exactly two places: the
`reduce` accumulator of `filterFormatOptions` (format.js lines 24-32) and
the `reduce` accumulator of `formatHTMLMessage` (lines 211-215).  To state
that those writes never touch the caller's objects, the two loops are
re-embedded against an explicit heap of objects addressed by allocation
index; property writes go through `heapWrite`. -/

/-- A heap of JS objects, addressed by allocation index. -/
abbrev Heap := List Obj

/-- Dereference an object; a dangling reference reads as empty. -/
def heapRead (h : Heap) (r : Nat) : Obj :=
  (h.get? r).getD []

/-- Property assignment through a reference: `h[r][k] = v`. -/
def heapWrite : Heap → Nat → String → JSVal → Heap
  | [], _, _, _ => []
  | o :: h, 0, k, v => setKey o k v :: h
  | o :: h, r + 1, k, v => o :: heapWrite h r k v

/-- One step of the `reduce` body of `filterFormatOptions` against the
heap: read the whitelisted property through the `obj` reference (else the
`defaults` reference) and write it through the accumulator reference
`optsRef`.  `defsRef = none` models a falsy `defaults` (treated as having
no own properties). -/
def filterStepH (objRef : Nat) (defsRef : Option Nat) (optsRef : Nat)
    (hh : Heap) (name : String) : Heap :=
  if hasOwn (heapRead hh objRef) name then
    heapWrite hh optsRef name (getProp (heapRead hh objRef) name)
  else
    match defsRef with
    | some dr =>
      if hasOwn (heapRead hh dr) name then
        heapWrite hh optsRef name (getProp (heapRead hh dr) name)
      else hh
    | none => hh

/-- `filterFormatOptions` against the heap: allocate the fresh `reduce`
accumulator `{}` at address `h.length`, then run the whitelist loop,
writing only through the fresh reference.  Returns the final heap and the
reference to the result. -/
def filterFormatOptionsH (whitelist : List String) (h : Heap) (objRef : Nat)
    (defsRef : Option Nat) : Heap × Nat :=
  (whitelist.foldl (filterStepH objRef defsRef h.length) (h ++ [[]]), h.length)

/-- One step of the escaping `reduce` of `formatHTMLMessage` against the
heap: write the escaped value of the property read through the raw-values
reference into the accumulator reference. -/
def escapeStepH (rawRef escRef : Nat) (hh : Heap) (name : String) : Heap :=
  heapWrite hh escRef name (escapeValue (getProp (heapRead hh rawRef) name))

/-- The escaping `reduce` of `formatHTMLMessage` against the heap:
allocate the fresh accumulator `{}` at address `h.length`, then for each
key of `rawValues` write the escaped value through the fresh reference
only. -/
def escapeValuesH (h : Heap) (rawRef : Nat) : Heap × Nat :=
  (((heapRead h rawRef).map Prod.fst).foldl (escapeStepH rawRef h.length)
    (h ++ [[]]), h.length)

/-- The exported functions of the module `format.js`, reified for the
architectural claim about the module's surface. -/
inductive ModuleExport where
  | formatDate
  | formatTime
  | formatRelative
  | formatNumber
  | formatPlural
  | formatMessage
  | formatHTMLMessage
deriving DecidableEq, Repr

/-- The export list of format.js, in source order (lines 48, 63, 78, 96,
110, 118, 207). -/
def moduleExports : List ModuleExport :=
  [ModuleExport.formatDate, ModuleExport.formatTime,
   ModuleExport.formatRelative, ModuleExport.formatNumber,
   ModuleExport.formatPlural, ModuleExport.formatMessage,
   ModuleExport.formatHTMLMessage]

/-- Whether an exported function obtains its formatter object directly
from the supplied state cache: true for all exports except
`formatHTMLMessage`, which never touches the state itself and instead
delegates to `formatMessage` (format.js line 217). -/
def usesStateFormatterDirectly : ModuleExport → Bool
  | ModuleExport.formatHTMLMessage => false
  | _ => true

/-! ### Concrete fixtures for counterexamples and witnesses -/

/-- A message formatter succeeding with a fixed output. -/
def constMsgFormatter (s : String) : MsgFormatter :=
  ⟨fun _ => Except.ok s⟩

/-- A state whose message formatting always succeeds and returns the empty
string, with trivial formatters elsewhere. -/
def emptyOutputState : State where
  getDateTimeFormat := fun _ _ => ⟨fun _ => ""⟩
  getNumberFormat := fun _ _ => ⟨fun _ => ""⟩
  getRelativeFormat := fun _ _ => ⟨fun _ _ => ""⟩
  getPluralFormat := fun _ _ => ⟨fun _ => ""⟩
  getMessageFormat := fun _ _ _ => Except.ok (constMsgFormatter "")
  now := 0

/-- A state whose message formatting always throws. -/
def throwingState : State where
  getDateTimeFormat := fun _ _ => ⟨fun _ => ""⟩
  getNumberFormat := fun _ _ => ⟨fun _ => ""⟩
  getRelativeFormat := fun _ _ => ⟨fun _ _ => ""⟩
  getPluralFormat := fun _ _ => ⟨fun _ => ""⟩
  getMessageFormat := fun _ _ _ => Except.error "boom"
  now := 0

/-- A configuration whose catalog maps `"greeting"` to `"Hello"`. -/
def greetingConfig : Config where
  locale := "en"
  formats := none
  messages := some [("greeting", "Hello")]
  defaultLocale := "en"
  defaultFormats := none

/-- The descriptor `{id: "greeting"}` with no default message. -/
def greetingDescriptor : MessageDescriptor where
  id := some "greeting"
  defaultMessage := none

/-! ### Shared lemmas -/

lemma lookupProp_setKey (o : Obj) (k : String) (v : JSVal) (k' : String) :
    lookupProp (setKey o k v) k' = if k' = k then some v else lookupProp o k' := by
  induction o with
  | nil =>
    simp only [setKey, lookupProp]
    by_cases h : k' = k
    · rw [if_pos h.symm, if_pos h]
    · rw [if_neg (fun hh => h hh.symm), if_neg h]
  | cons p rest ih =>
    obtain ⟨k0, v0⟩ := p
    simp only [setKey]
    by_cases h0 : k0 = k
    · subst h0
      simp only [if_pos rfl, lookupProp]
      by_cases h : k0 = k'
      · rw [if_pos h, if_pos h.symm]
      · rw [if_neg h, if_neg (fun hh => h hh.symm), if_neg h]
    · simp only [if_neg h0, lookupProp, ih]
      by_cases h : k0 = k'
      · subst h
        rw [if_pos rfl, if_neg h0, if_pos rfl]
      · rw [if_neg h, if_neg h]

lemma lookupProp_eq_some_getProp (o : Obj) (k : String)
    (h : hasOwn o k = true) : lookupProp o k = some (getProp o k) := by
  unfold hasOwn at h
  unfold getProp
  cases hl : lookupProp o k with
  | none => rw [hl] at h; simp at h
  | some v => simp

lemma lookupProp_filterStep_self (obj defaults acc : Obj) (name : String)
    (h : hasOwn obj name = true ∨ hasOwn defaults name = true) :
    lookupProp (filterStep obj defaults acc name) name =
      if hasOwn obj name then lookupProp obj name
      else lookupProp defaults name := by
  unfold filterStep
  by_cases ho : hasOwn obj name
  · simp [ho, lookupProp_setKey, lookupProp_eq_some_getProp obj name ho]
  · have hd : hasOwn defaults name = true := by
      cases h with
      | inl hh => exact absurd hh ho
      | inr hh => exact hh
    simp [ho, hd, lookupProp_setKey, lookupProp_eq_some_getProp defaults name hd]

lemma lookupProp_filterStep_other (obj defaults acc : Obj) (n name : String)
    (h : name ≠ n ∨ (hasOwn obj name = false ∧ hasOwn defaults name = false)) :
    lookupProp (filterStep obj defaults acc n) name = lookupProp acc name := by
  unfold filterStep
  by_cases hn : name = n
  · subst hn
    have hno : hasOwn obj name = false ∧ hasOwn defaults name = false := by
      cases h with
      | inl hh => exact absurd rfl hh
      | inr hh => exact hh
    simp [hno.1, hno.2]
  · by_cases ho : hasOwn obj n
    · simp [ho, lookupProp_setKey, hn]
    · by_cases hd : hasOwn defaults n
      · simp [ho, hd, lookupProp_setKey, hn]
      · simp [ho, hd]

lemma lookupProp_foldl_filterStep (obj defaults : Obj) (name : String)
    (wl : List String) :
    ∀ acc : Obj,
      lookupProp (wl.foldl (filterStep obj defaults) acc) name =
        if name ∈ wl ∧ (hasOwn obj name = true ∨ hasOwn defaults name = true) then
          (if hasOwn obj name then lookupProp obj name
           else lookupProp defaults name)
        else lookupProp acc name := by
  induction wl with
  | nil => intro acc; simp
  | cons n wl ih =>
    intro acc
    rw [List.foldl_cons, ih]
    by_cases hp : hasOwn obj name = true ∨ hasOwn defaults name = true
    · by_cases hw : name ∈ wl
      · simp [hw, hp]
      · by_cases hn : name = n
        · subst hn
          rw [lookupProp_filterStep_self obj defaults acc name hp]
          simp [hw, hp]
        · rw [lookupProp_filterStep_other obj defaults acc n name (Or.inl hn)]
          simp [hw, hn]
    · have hno : hasOwn obj name = false := by
        cases hh : hasOwn obj name
        · rfl
        · exact absurd (Or.inl hh) hp
      have hnd : hasOwn defaults name = false := by
        cases hh : hasOwn defaults name
        · rfl
        · exact absurd (Or.inr hh) hp
      rw [lookupProp_filterStep_other obj defaults acc n name (Or.inr ⟨hno, hnd⟩)]
      simp [hp]

lemma setKey_append_of_none (o : Obj) (k : String) (v : JSVal)
    (h : lookupProp o k = none) : setKey o k v = o ++ [(k, v)] := by
  induction o with
  | nil => simp [setKey]
  | cons p rest ih =>
    obtain ⟨k0, v0⟩ := p
    by_cases h0 : k0 = k
    · simp [lookupProp, h0] at h
    · simp only [lookupProp, h0, if_false] at h
      simp [setKey, h0, ih h]

lemma lookupProp_append_of_none (a b : Obj) (k : String)
    (h : lookupProp a k = none) : lookupProp (a ++ b) k = lookupProp b k := by
  induction a with
  | nil => simp
  | cons p rest ih =>
    obtain ⟨k0, v0⟩ := p
    by_cases h0 : k0 = k
    · simp [lookupProp, h0] at h
    · simp only [lookupProp, h0, if_false] at h
      simp only [List.cons_append, lookupProp, h0, if_false]
      exact ih h

lemma escapeValues_foldl_append (l : List (String × JSVal)) :
    ∀ acc : Obj,
      (∀ p ∈ l, lookupProp acc p.1 = none) → (l.map Prod.fst).Nodup →
      l.foldl (fun escaped nv => setKey escaped nv.1 (escapeValue nv.2)) acc =
        acc ++ l.map escapeEntry := by
  induction l with
  | nil => intro acc _ _; simp
  | cons p l ih =>
    intro acc hacc hnd
    obtain ⟨k, v⟩ := p
    rw [List.foldl_cons]
    rw [setKey_append_of_none acc k (escapeValue v) (hacc (k, v) (by simp))]
    rw [ih (acc ++ [(k, escapeValue v)]) ?later ?nodup]
    · simp [escapeEntry]
    case nodup => exact (List.nodup_cons.mp (by simpa using hnd)).2
    case later =>
      intro q hq
      have hqk : q.1 ≠ k := by
        intro hh
        have : k ∈ l.map Prod.fst := by
          rw [← hh]
          exact List.mem_map_of_mem Prod.fst hq
        exact (List.nodup_cons.mp (by simpa using hnd)).1 this
      rw [lookupProp_append_of_none acc _ q.1 (hacc q (by simp [hq]))]
      simp [lookupProp, hqk.symm]

lemma escapeValues_eq_map (raw : Obj) (h : (raw.map Prod.fst).Nodup) :
    escapeValues raw = raw.map escapeEntry := by
  unfold escapeValues
  rw [escapeValues_foldl_append raw [] (fun p _ => rfl) h]
  simp

lemma heapWrite_append_last (h : Heap) (o : Obj) (k : String) (v : JSVal) :
    heapWrite (h ++ [o]) h.length k v = h ++ [setKey o k v] := by
  induction h with
  | nil => rfl
  | cons a h ih => simp [heapWrite, ih]

lemma foldl_extend_frame {α : Type} (h : Heap) (step : Heap → α → Heap)
    (hstep : ∀ (o : Obj) (x : α), ∃ o', step (h ++ [o]) x = h ++ [o'])
    (l : List α) : ∀ o : Obj, ∃ o', l.foldl step (h ++ [o]) = h ++ [o'] := by
  induction l with
  | nil => intro o; exact ⟨o, rfl⟩
  | cons x l ih =>
    intro o
    obtain ⟨o1, h1⟩ := hstep o x
    rw [List.foldl_cons, h1]
    exact ih o1

lemma tryFormatLogged_fst (state : State) (source locale : String)
    (formats : Option Formats) (values : Obj) (errLog : String → String)
    (prod : Bool) :
    (tryFormatLogged state source locale formats values errLog prod).1 =
      tryFormat state source locale formats values := by
  unfold tryFormatLogged tryFormat
  rcases hgm : state.getMessageFormat source locale formats with e | f
  · simp
  · rcases hf : f.format values with e | s <;> simp [hf]

lemma tryFormatLogged_snd_prod (state : State) (source locale : String)
    (formats : Option Formats) (values : Obj) (errLog : String → String) :
    (tryFormatLogged state source locale formats values errLog true).2 = [] := by
  unfold tryFormatLogged
  rcases hgm : state.getMessageFormat source locale formats with e | f
  · simp
  · rcases hf : f.format values with e | s <;> simp [hf]

lemma formatMessage_of_id_falsy (config : Config) (state : State)
    (d : MessageDescriptor) (values : Obj) (prod : Bool)
    (hid : strTruthy d.id = false) :
    formatMessage config state d values prod = (Except.error invariantMessage, []) := by
  unfold formatMessage
  simp [hid]

lemma formatMessage_eq_chain (config : Config) (state : State)
    (d : MessageDescriptor) (values : Obj) (prod : Bool)
    (hid : strTruthy d.id = true) :
    (formatMessage config state d values prod).1 =
      Except.ok (jsOr (attemptedMessage config state d values prod)
        (jsOr (catalogMessage config (d.id.getD ""))
          (jsOr d.defaultMessage (d.id.getD "")))) := by
  unfold formatMessage attemptedMessage
  simp only [hid, Bool.not_true, Bool.false_eq_true, if_false]
  cases hfast : values.isEmpty && prod with
  | true => simp [jsOr, strTruthy]
  | false =>
    simp only [Bool.false_eq_true, if_false]
    have h1 : (if strTruthy (catalogMessage config (d.id.getD "")) then
          tryFormatLogged state ((catalogMessage config (d.id.getD "")).getD "")
            config.locale config.formats values
            (formatErrorLog (d.id.getD "") config.locale d.defaultMessage) prod
        else (none, missingLogs prod config d.defaultMessage (d.id.getD ""))).1 =
        (if strTruthy (catalogMessage config (d.id.getD "")) then
          tryFormat state ((catalogMessage config (d.id.getD "")).getD "")
            config.locale config.formats values
        else none) := by
      by_cases hm : strTruthy (catalogMessage config (d.id.getD ""))
      · simp [hm, tryFormatLogged_fst]
      · simp [hm]
    simp only [h1, tryFormatLogged_fst, apply_ite Prod.fst]

lemma formatMessage_snd_prod (config : Config) (state : State)
    (d : MessageDescriptor) (values : Obj) :
    (formatMessage config state d values true).2 = [] := by
  unfold formatMessage
  cases hid : strTruthy d.id with
  | false => simp [hid]
  | true =>
    simp only [hid, Bool.not_true, Bool.false_eq_true, if_false]
    cases hfast : values.isEmpty && true with
    | true => simp
    | false =>
      simp only [Bool.false_eq_true, if_false]
      simp [apply_ite Prod.snd, tryFormatLogged_snd_prod, missingLogs]

/-! ### Claim theorems -/

/-- Claim C1, counterexample.  The claim states that `formatMessage`
returns the first defined element of (successfully formatted message, raw
catalog message, raw defaultMessage, id).  At this input the catalog
message `"Hello"` formats successfully to the empty string, which is
defined, so the claimed result is `""`; the code, which chains with JS
truthiness (`||`), instead falls back to the raw catalog message and
returns `"Hello"`. -/
theorem c1_fallback_chain_counterexample :
    (formatMessage greetingConfig emptyOutputState greetingDescriptor
        [("name", JSVal.str "Bob")] false).1 = Except.ok "Hello" ∧
    attemptedMessage greetingConfig emptyOutputState greetingDescriptor
        [("name", JSVal.str "Bob")] false = some "" ∧
    firstDefined
        [attemptedMessage greetingConfig emptyOutputState greetingDescriptor
            [("name", JSVal.str "Bob")] false,
          catalogMessage greetingConfig "greeting",
          greetingDescriptor.defaultMessage,
          greetingDescriptor.id] = some "" ∧
    ("Hello" : String) ≠ "" :=
  ⟨rfl, rfl, rfl, by decide⟩

/-- Claim C1, amended: for every call with a truthy id, the returned value
is the first JS-truthy element of (formatted message — the formatted
catalog message, or, when that yields nothing truthy, the formatted
default message —, raw catalog message, raw defaultMessage), falling back
to the id; formatting is skipped entirely on the production empty-values
fast path. -/
theorem c1_fallback_chain_amended :
    ∀ (config : Config) (state : State) (d : MessageDescriptor)
      (values : Obj) (prod : Bool), strTruthy d.id = true →
      (formatMessage config state d values prod).1 =
        Except.ok (jsOr (attemptedMessage config state d values prod)
          (jsOr (catalogMessage config (d.id.getD ""))
            (jsOr d.defaultMessage (d.id.getD "")))) :=
  fun config state d values prod hid =>
    formatMessage_eq_chain config state d values prod hid

/-- Witness for the amended claim C1 at a concrete input. -/
theorem c1_fallback_chain_amended_witness :
    strTruthy greetingDescriptor.id = true ∧
    (formatMessage greetingConfig emptyOutputState greetingDescriptor
        [("name", JSVal.str "Bob")] false).1 =
      Except.ok (jsOr (attemptedMessage greetingConfig emptyOutputState
            greetingDescriptor [("name", JSVal.str "Bob")] false)
        (jsOr (catalogMessage greetingConfig (greetingDescriptor.id.getD ""))
          (jsOr greetingDescriptor.defaultMessage
            (greetingDescriptor.id.getD "")))) :=
  ⟨by decide, c1_fallback_chain_amended greetingConfig emptyOutputState
      greetingDescriptor [("name", JSVal.str "Bob")] false (by decide)⟩

/-- Claim C2: for every call with a truthy id, errors raised while
constructing a message formatter or while formatting (for the catalog or
the default message) never propagate: the function returns `Except.ok`
with a string fallback for every state, including states whose message
formatting always throws; and in a production build no console line is
emitted. -/
theorem c2_errors_absorbed :
    ∀ (config : Config) (state : State) (d : MessageDescriptor)
      (values : Obj) (prod : Bool), strTruthy d.id = true →
      (∃ s, (formatMessage config state d values prod).1 = Except.ok s) ∧
      (prod = true → (formatMessage config state d values prod).2 = []) := by
  intro config state d values prod hid
  refine ⟨⟨_, formatMessage_eq_chain config state d values prod hid⟩, ?_⟩
  rintro rfl
  exact formatMessage_snd_prod config state d values

/-- Witness for claim C2: a throwing state, nonempty values, production
build. -/
theorem c2_errors_absorbed_witness :
    strTruthy greetingDescriptor.id = true ∧
    ((∃ s, (formatMessage greetingConfig throwingState greetingDescriptor
        [("x", JSVal.num 1)] true).1 = Except.ok s) ∧
      (true = true → (formatMessage greetingConfig throwingState
        greetingDescriptor [("x", JSVal.num 1)] true).2 = [])) :=
  ⟨by decide, c2_errors_absorbed greetingConfig throwingState
      greetingDescriptor [("x", JSVal.num 1)] true (by decide)⟩

/-- Claim C3: `formatMessage` raises the invariant violation exactly when
the descriptor's id is absent or falsy; with a truthy id it never raises
(the default message being optional: the statement quantifies over
descriptors with and without one). -/
theorem c3_id_invariant :
    ∀ (config : Config) (state : State) (d : MessageDescriptor)
      (values : Obj) (prod : Bool),
      (∃ e, (formatMessage config state d values prod).1 = Except.error e) ↔
        strTruthy d.id = false := by
  intro config state d values prod
  constructor
  · rintro ⟨e, he⟩
    cases hb : strTruthy d.id
    · rfl
    · rw [formatMessage_eq_chain config state d values prod hb] at he
      simp at he
  · intro hb
    rw [formatMessage_of_id_falsy config state d values prod hb]
    exact ⟨invariantMessage, rfl⟩

/-- Claim C4: `formatHTMLMessage` equals `formatMessage` applied to the
values object with every string-valued entry escaped and every other
entry unchanged (stated for well-formed JS objects, whose keys have no
duplicates). -/
theorem c4_html_escaping_equiv :
    ∀ (config : Config) (state : State) (d : MessageDescriptor)
      (rawValues : Obj) (prod : Bool), (rawValues.map Prod.fst).Nodup →
      formatHTMLMessage config state d rawValues prod =
        formatMessage config state d (rawValues.map escapeEntry) prod := by
  intro config state d rawValues prod h
  unfold formatHTMLMessage
  rw [escapeValues_eq_map rawValues h]

/-- Witness for claim C4 at a concrete raw-values object mixing a string
and a number. -/
theorem c4_html_escaping_equiv_witness :
    (([("a", JSVal.str "<b>"), ("n", JSVal.num 3)] : Obj).map Prod.fst).Nodup ∧
    formatHTMLMessage greetingConfig emptyOutputState greetingDescriptor
        [("a", JSVal.str "<b>"), ("n", JSVal.num 3)] false =
      formatMessage greetingConfig emptyOutputState greetingDescriptor
        (([("a", JSVal.str "<b>"), ("n", JSVal.num 3)] : Obj).map escapeEntry)
        false :=
  ⟨by decide, c4_html_escaping_equiv greetingConfig emptyOutputState
      greetingDescriptor [("a", JSVal.str "<b>"), ("n", JSVal.num 3)] false
      (by decide)⟩

/-- Claim C5: `formatNumber`, `formatDate` and `formatTime` are pure
delegation: each returns exactly the string produced by the state-supplied
formatter constructed from the configured locale and the whitelist-filtered
merge of the options over the named format's defaults, applied to the raw
value (`formatNumber`) or to `new Date(value)` (`formatDate`,
`formatTime`). -/
theorem c5_pure_delegation :
    ∀ (config : Config) (state : State) (value : JSVal) (options : Obj),
      formatNumber config state value options =
        (state.getNumberFormat config.locale
          (filterFormatOptions NUMBER_FORMAT_OPTIONS options
            (namedDefaults config "number" options))).format value ∧
      formatDate config state value options =
        (state.getDateTimeFormat config.locale
          (filterFormatOptions DATE_TIME_FORMAT_OPTIONS options
            (namedDefaults config "date" options))).format (newDate value) ∧
      formatTime config state value options =
        (state.getDateTimeFormat config.locale
          (filterFormatOptions DATE_TIME_FORMAT_OPTIONS options
            (namedDefaults config "time" options))).format (newDate value) :=
  fun _ _ _ _ => ⟨rfl, rfl, rfl⟩

/-- Claim C6, counterexample: the module exports seven formatting
functions, not six. -/
theorem c6_six_functions_counterexample : moduleExports.length ≠ 6 := by
  decide

/-- Claim C6, amended: the module consists of seven formatting functions,
six of which obtain their formatter object directly from the externally
supplied cache/state argument; the seventh, `formatHTMLMessage`, never
touches the state itself and delegates to `formatMessage` after escaping
the values. -/
theorem c6_six_functions_amended :
    moduleExports.length = 7 ∧
    (moduleExports.filter usesStateFormatterDirectly).length = 6 ∧
    usesStateFormatterDirectly ModuleExport.formatHTMLMessage = false ∧
    (∀ (config : Config) (state : State) (d : MessageDescriptor)
      (rawValues : Obj) (prod : Bool),
      formatHTMLMessage config state d rawValues prod =
        formatMessage config state d (escapeValues rawValues) prod) :=
  ⟨by decide, by decide, rfl, fun _ _ _ _ _ => rfl⟩

/-- Claim C7: the module never mutates its inputs.  Its only two property
writes — the `reduce` accumulator loops of `filterFormatOptions` and of
`formatHTMLMessage`'s value escaping — are re-embedded against an explicit
heap; each loop extends the heap by exactly one freshly allocated object
(returned as the fresh reference `h.length`) and leaves every pre-existing
heap cell, in particular the config, options, descriptor and raw-values
objects, byte-for-byte unchanged.  All remaining code only reads its
arguments or calls the externally supplied formatters. -/
theorem c7_no_input_mutation :
    (∀ (whitelist : List String) (h : Heap) (objRef : Nat)
      (defsRef : Option Nat),
      ∃ o : Obj, filterFormatOptionsH whitelist h objRef defsRef =
        (h ++ [o], h.length)) ∧
    (∀ (h : Heap) (rawRef : Nat),
      ∃ o : Obj, escapeValuesH h rawRef = (h ++ [o], h.length)) := by
  constructor
  · intro wl h objRef defsRef
    have hstep : ∀ (o : Obj) (name : String),
        ∃ o', filterStepH objRef defsRef h.length (h ++ [o]) name = h ++ [o'] := by
      intro o name
      unfold filterStepH
      by_cases h1 : hasOwn (heapRead (h ++ [o]) objRef) name
      · exact ⟨setKey o name (getProp (heapRead (h ++ [o]) objRef) name),
          by simp only [h1, if_true, heapWrite_append_last]⟩
      · cases defsRef with
        | none => exact ⟨o, by simp [h1]⟩
        | some dr =>
          by_cases h2 : hasOwn (heapRead (h ++ [o]) dr) name
          · exact ⟨setKey o name (getProp (heapRead (h ++ [o]) dr) name),
              by simp only [h1, h2, if_true, Bool.false_eq_true, if_false,
                heapWrite_append_last]⟩
          · exact ⟨o, by simp [h1, h2]⟩
    obtain ⟨o', ho⟩ :=
      foldl_extend_frame h (filterStepH objRef defsRef h.length) hstep wl []
    exact ⟨o', by unfold filterFormatOptionsH; rw [ho]⟩
  · intro h rawRef
    have hstep : ∀ (o : Obj) (name : String),
        ∃ o', escapeStepH rawRef h.length (h ++ [o]) name = h ++ [o'] := by
      intro o name
      exact ⟨_, by unfold escapeStepH; exact heapWrite_append_last h o name _⟩
    obtain ⟨o', ho⟩ := foldl_extend_frame h (escapeStepH rawRef h.length) hstep
      ((heapRead h rawRef).map Prod.fst) []
    exact ⟨o', by unfold escapeValuesH; rw [ho]⟩

/-- Claim C8: a key is present in the object `filterFormatOptions` builds
iff it is whitelisted and an own property of the options or of the
defaults, with the options taking precedence over the named-format
defaults and non-whitelisted keys never forwarded. -/
theorem c8_filter_options :
    ∀ (whitelist : List String) (options defaults : Obj) (name : String),
      lookupProp (filterFormatOptions whitelist options defaults) name =
        if name ∈ whitelist ∧
            (hasOwn options name = true ∨ hasOwn defaults name = true) then
          (if hasOwn options name then lookupProp options name
           else lookupProp defaults name)
        else none := by
  intro whitelist options defaults name
  unfold filterFormatOptions
  rw [lookupProp_foldl_filterStep]
  simp [lookupProp]

/-- Claim C9: the `now` reference `formatRelative` passes to the relative
formatter is `new Date(options.now)` whenever that conversion yields a
finite (valid) date — including when `options.now` is absent, in which
case the conversion of `undefined` is invalid — and `state.now()`
otherwise. -/
theorem c9_relative_now_default :
    ∀ (config : Config) (state : State) (value : JSVal) (options : Obj),
      formatRelative config state value options =
        (state.getRelativeFormat config.locale
          (filterFormatOptions RELATIVE_FORMAT_OPTIONS options
            (namedDefaults config "relative" options))).format (newDate value)
          ((newDate (getProp options "now")).getD state.now) := by
  intro config state value options
  unfold formatRelative
  cases h : newDate (getProp options "now") <;> simp [h]

/-- Claim C10: on a production build with an empty values object and a
truthy id, `formatMessage` returns `message || defaultMessage || id`
directly, with no console output and without consulting the state at all —
in particular `state.getMessageFormat` is never invoked (the theorem holds
even for a state whose message formatting always throws). -/
theorem c10_production_fast_path :
    ∀ (config : Config) (state : State) (d : MessageDescriptor),
      strTruthy d.id = true →
      formatMessage config state d [] true =
        (Except.ok (jsOr (catalogMessage config (d.id.getD ""))
          (jsOr d.defaultMessage (d.id.getD ""))), []) := by
  intro config state d hid
  unfold formatMessage
  simp [hid]

/-- Witness for claim C10, with a state whose message formatting always
throws: the fast path never reaches it. -/
theorem c10_production_fast_path_witness :
    strTruthy greetingDescriptor.id = true ∧
    formatMessage greetingConfig throwingState greetingDescriptor [] true =
      (Except.ok (jsOr (catalogMessage greetingConfig
          (greetingDescriptor.id.getD ""))
        (jsOr greetingDescriptor.defaultMessage
          (greetingDescriptor.id.getD ""))), []) :=
  ⟨by decide, c10_production_fast_path greetingConfig throwingState
      greetingDescriptor (by decide)⟩

end ReactIntl
